import Mathlib

/-!
Shallow embedding of the repository-record pipeline of
`generate_repo_list.py` (the OWASP-Bumper dashboard generator).

Modelling conventions:
- Strings are `List Char`; Python `in` and JS `includes` become an
  executable substring check; `toLowerCase` maps `Char.toLower`.
- Timestamps are `Option ℚ` holding milliseconds since the epoch of the
  parsed date string; `none` stands for an absent or empty date string
  (which is falsy in JS, and for which `new Date` yields an invalid date).
- JS numbers are `ℚ` (the quantities involved are exact in IEEE doubles at
  the precision the claims speak about); a comparator result that may be
  NaN is `Option ℚ` with `none` for NaN, and the ECMAScript sort rule
  maps NaN to 0 (`SortCompare`: if v is NaN, return +0).
- `Array.prototype.sort` is modelled as a stable comparison sort
  (ECMAScript requires sort stability); locale-aware `localeCompare` is
  abstracted as code-point lexicographic comparison.
-/

namespace Bumper

abbrev Str := List Char

/-- JS `toLowerCase`, per character. -/
def strLower (s : Str) : Str := s.map Char.toLower

/-- Does `needle` occur at the very start of `hay`. -/
def leadsWith : Str → Str → Bool
  | [], _ => true
  | _ :: _, [] => false
  | a :: as, b :: bs => a == b && leadsWith as bs

/-- Substring containment: JS `hay.includes(needle)`, Python `needle in hay`. -/
def strContains : Str → Str → Bool
  | [], needle => needle.isEmpty
  | h :: t, needle => leadsWith needle (h :: t) || strContains t needle

/-- Raw `index_md` metadata block fields (all optional). -/
structure RawIndexMd where
  title : Option Str := none
  tags : Option (List Str) := none
  level : Option ℤ := none
  pitch : Option Str := none
  type : Option Str := none
  region : Option Str := none
  country : Option Str := none

/-- A raw catalog record as handed to `generate_html`: every field may be
absent. `updated_at`/`created_at` hold the parsed timestamp in ms, `none`
for an absent or empty string. `sparkline` is always set by `main`
(possibly to `[]`). -/
structure RawRepo where
  name : Option Str := none
  description : Option Str := none
  html_url : Option Str := none
  stargazers_count : Option ℕ := none
  forks_count : Option ℕ := none
  open_issues_count : Option ℕ := none
  open_prs_count : Option ℕ := none
  updated_at : Option ℚ := none
  created_at : Option ℚ := none
  language : Option Str := none
  archived : Option Bool := none
  sparkline : List ℕ := []
  index_md : RawIndexMd := {}

/-- The normalized record shape placed into the `repos` JSON array. -/
structure Repo where
  name : Str
  description : Str
  html_url : Str
  stargazers_count : ℕ
  forks_count : ℕ
  open_issues_count : ℕ
  open_prs_count : ℕ
  updated_at : Option ℚ
  created_at : Option ℚ
  language : Str
  archived : Bool
  is_project : Bool
  is_chapter : Bool
  sparkline : List ℕ
  activity_score : ℕ
  title : Str
  tags : List Str
  level : Option ℤ
  pitch : Str
deriving DecidableEq, Repr

/-- `activity_score = sum(sparkline) if sparkline else 0` (generate_html). -/
def activityScore (sparkline : List ℕ) : ℕ :=
  if sparkline.isEmpty then 0 else sparkline.sum

/-- The record-building loop of `generate_html`: fills documented defaults
for absent fields and derives `is_project` / `is_chapter` by
case-insensitive substring match on the name, and `activity_score` from
the sparkline. -/
def normalize (raw : RawRepo) : Repo :=
  let name := raw.name.getD []
  { name := name
    description := raw.description.getD []
    html_url := raw.html_url.getD []
    stargazers_count := raw.stargazers_count.getD 0
    forks_count := raw.forks_count.getD 0
    open_issues_count := raw.open_issues_count.getD 0
    open_prs_count := raw.open_prs_count.getD 0
    updated_at := raw.updated_at
    created_at := raw.created_at
    language :=
      if (raw.language.getD []).isEmpty then "N/A".data else raw.language.getD []
    archived := raw.archived.getD false
    is_project := strContains (strLower name) "www-project".data
    is_chapter := strContains (strLower name) "www-chapter".data
    sparkline := raw.sparkline
    activity_score := activityScore raw.sparkline
    title := raw.index_md.title.getD []
    tags := raw.index_md.tags.getD []
    level := raw.index_md.level
    pitch := raw.index_md.pitch.getD [] }

/-- `1000 * 60 * 60 * 24 * 365.25` milliseconds. -/
def msPerYear : ℚ := 31557600000

/-- `getYearsSinceUpdate(dateStr)` with the reference instant `now`
injected: an absent or empty date string yields `0`; otherwise the
elapsed milliseconds divided by `msPerYear`. -/
def getYearsSinceUpdate (now : ℚ) (dateStr : Option ℚ) : ℚ :=
  match dateStr with
  | none => 0
  | some t => (now - t) / msPerYear

inductive RecencyBucket
  | active
  | inactive
  | longInactive
deriving DecidableEq, Repr

/-- The activity-badge classification of `renderRepos`: `>= 3` years gives
the 3yr+ badge, else `>= 1` the 1yr+ badge, else no badge (active). -/
def recencyBucket (years : ℚ) : RecencyBucket :=
  if years ≥ 3 then .longInactive
  else if years ≥ 1 then .inactive
  else .active

/-- `Math.max(...data, 1)` as a natural number. -/
def sparkMaxNat (data : List ℕ) : ℕ := data.foldr Nat.max 1

/-- `const divisor = data.length > 1 ? data.length - 1 : 1`. -/
def sparkDivisor (data : List ℕ) : ℚ :=
  if data.length > 1 then ((data.length - 1 : ℕ) : ℚ) else 1

/-- The `getCoord` helper of `generateSparklineSVG` (before string
formatting): `x = (index / divisor) * width`,
`y = height - (value / max) * height`. -/
def getCoord (data : List ℕ) (width height : ℚ) (value index : ℕ) : ℚ × ℚ :=
  ((index / sparkDivisor data) * width,
   height - ((value : ℚ) / (sparkMaxNat data : ℚ)) * height)

/-- `data.map((value, index) => getCoord(value, index))`. -/
def sparkPoints (data : List ℕ) (width height : ℚ) : List (ℚ × ℚ) :=
  data.enum.map fun p => getCoord data width height p.2 p.1

/-- Result of `generateSparklineSVG`: either the no-data label, or the
polyline points together with the fill-path boundary and the commit
total shown in the title. -/
inductive SparklineResult
  | noData
  | svg (points : List (ℚ × ℚ)) (fillBoundary : List (ℚ × ℚ)) (totalCommits : ℕ)
deriving DecidableEq, Repr

/-- `generateSparklineSVG(data, width, height)`: empty data yields the
no-data sentinel; otherwise one point per entry, and the fill path
`M0,h L points L w,h Z` whose boundary is the points prefixed by
`(0, height)` and suffixed by `(width, height)`. -/
def generateSparklineSVG (data : List ℕ) (width height : ℚ) : SparklineResult :=
  if data.isEmpty then .noData
  else
    .svg (sparkPoints data width height)
      ((0, height) :: sparkPoints data width height ++ [(width, height)])
      data.sum

/-- Subtraction of possibly-NaN JS numbers (`none` = NaN, as produced by
`new Date` on an invalid date string). -/
def numSub (a b : Option ℚ) : Option ℚ :=
  match a, b with
  | some x, some y => some (x - y)
  | _, _ => none

/-- ECMAScript `SortCompare`: a NaN comparator result is treated as +0. -/
def sortCompareVal (v : Option ℚ) : ℚ := v.getD 0

/-- Code-point lexicographic comparison standing in for
`localeCompare` (locale abstracted away). -/
def localeCompare : Str → Str → ℚ
  | [], [] => 0
  | [], _ :: _ => -1
  | _ :: _, [] => 1
  | a :: as, b :: bs =>
      if a.toNat < b.toNat then -1
      else if b.toNat < a.toNat then 1
      else localeCompare as bs

/-- The 18 `sortBy` cases of `sortRepos`. -/
inductive SortKey
  | updatedDesc | updatedAsc
  | createdDesc | createdAsc
  | nameAsc | nameDesc
  | starsDesc | starsAsc
  | forksDesc | forksAsc
  | activityDesc | activityAsc
  | prsDesc | prsAsc
  | issuesDesc | issuesAsc
  | levelDesc | levelAsc
deriving DecidableEq, Repr

/-- The comparator passed to `sorted.sort(...)` for each sort key, after
the ECMAScript NaN-to-zero step for the date comparators. -/
def comparator (sortBy : SortKey) (a b : Repo) : ℚ :=
  match sortBy with
  | .updatedDesc => sortCompareVal (numSub b.updated_at a.updated_at)
  | .updatedAsc => sortCompareVal (numSub a.updated_at b.updated_at)
  | .createdDesc => sortCompareVal (numSub b.created_at a.created_at)
  | .createdAsc => sortCompareVal (numSub a.created_at b.created_at)
  | .nameAsc => localeCompare a.name b.name
  | .nameDesc => localeCompare b.name a.name
  | .starsDesc => (b.stargazers_count : ℚ) - (a.stargazers_count : ℚ)
  | .starsAsc => (a.stargazers_count : ℚ) - (b.stargazers_count : ℚ)
  | .forksDesc => (b.forks_count : ℚ) - (a.forks_count : ℚ)
  | .forksAsc => (a.forks_count : ℚ) - (b.forks_count : ℚ)
  | .activityDesc => (b.activity_score : ℚ) - (a.activity_score : ℚ)
  | .activityAsc => (a.activity_score : ℚ) - (b.activity_score : ℚ)
  | .prsDesc => (b.open_prs_count : ℚ) - (a.open_prs_count : ℚ)
  | .prsAsc => (a.open_prs_count : ℚ) - (b.open_prs_count : ℚ)
  | .issuesDesc => (b.open_issues_count : ℚ) - (a.open_issues_count : ℚ)
  | .issuesAsc => (a.open_issues_count : ℚ) - (b.open_issues_count : ℚ)
  | .levelDesc => ((b.level.getD 0 : ℤ) : ℚ) - ((a.level.getD 0 : ℤ) : ℚ)
  | .levelAsc => ((a.level.getD 0 : ℤ) : ℚ) - ((b.level.getD 0 : ℤ) : ℚ)

/-- Stable insertion: `x` (earlier in the original order than everything
already placed) goes before the first element it does not compare
strictly greater than. -/
def stableInsert (cmp : Repo → Repo → ℚ) (x : Repo) : List Repo → List Repo
  | [] => [x]
  | y :: ys => if cmp x y ≤ 0 then x :: y :: ys else y :: stableInsert cmp x ys

/-- Stable comparison sort modelling `Array.prototype.sort` (ECMAScript
mandates stability: elements comparing as 0 keep their original relative
order). -/
def stableSort (cmp : Repo → Repo → ℚ) : List Repo → List Repo
  | [] => []
  | x :: xs => stableInsert cmp x (stableSort cmp xs)

/-- `sortRepos(repos, sortBy)`: copies the array and sorts it with the
comparator of the chosen key. -/
def sortRepos (repos : List Repo) (sortBy : SortKey) : List Repo :=
  stableSort (comparator sortBy) repos

inductive CategoryFilter
  | all
  | project
  | chapter
deriving DecidableEq, Repr

inductive ActivityFilter
  | all
  | withinYear
  | oneYrOld
  | threeYrOld
deriving DecidableEq, Repr

/-- The UI filter selection read by `filterRepos`. -/
structure FilterState where
  hideArchived : Bool
  currentFilter : CategoryFilter
  activityFilter : ActivityFilter
deriving DecidableEq, Repr

/-- The search predicate of `filterRepos` for a non-empty term `term`
(already lower-cased). -/
def matchesSearch (term : Str) (r : Repo) : Bool :=
  strContains (strLower r.name) term ||
  strContains (strLower r.description) term ||
  strContains (strLower r.title) term ||
  strContains (strLower r.pitch) term ||
  r.tags.any fun tag => strContains (strLower tag) term

/-- `filterRepos(repos)` with the globals (`hideArchived`,
`currentFilter`, `activityFilter`, `searchTerm`) and the clock passed
explicitly; applies, in this order: archived visibility, category,
activity recency, then free-text search. -/
def filterRepos (now : ℚ) (st : FilterState) (searchTerm : Str)
    (repos : List Repo) : List Repo :=
  let f1 := if st.hideArchived then repos.filter (fun r => !r.archived) else repos
  let f2 := match st.currentFilter with
    | .project => f1.filter fun r => r.is_project
    | .chapter => f1.filter fun r => r.is_chapter
    | .all => f1
  let f3 := match st.activityFilter with
    | .withinYear => f2.filter fun r => getYearsSinceUpdate now r.updated_at < 1
    | .oneYrOld => f2.filter fun r => getYearsSinceUpdate now r.updated_at ≥ 1
    | .threeYrOld => f2.filter fun r => getYearsSinceUpdate now r.updated_at ≥ 3
    | .all => f2
  if searchTerm.isEmpty then f3
  else f3.filter (matchesSearch (strLower searchTerm))

/-- `renderRepos`: sorts the full record set, then filters (which ends
with the search stage); the visible ordered record list. -/
def renderRepos (repos : List Repo) (now : ℚ) (sortKey : SortKey)
    (st : FilterState) (searchTerm : Str) : List Repo :=
  filterRepos now st searchTerm (sortRepos repos sortKey)

/-- Stage 2 of the spec pipeline taken by itself: the non-search filters
(archived visibility, category, recency), in the order of the source. -/
def applyFilters (now : ℚ) (st : FilterState) (repos : List Repo) : List Repo :=
  let f1 := if st.hideArchived then repos.filter (fun r => !r.archived) else repos
  let f2 := match st.currentFilter with
    | .project => f1.filter fun r => r.is_project
    | .chapter => f1.filter fun r => r.is_chapter
    | .all => f1
  match st.activityFilter with
  | .withinYear => f2.filter fun r => getYearsSinceUpdate now r.updated_at < 1
  | .oneYrOld => f2.filter fun r => getYearsSinceUpdate now r.updated_at ≥ 1
  | .threeYrOld => f2.filter fun r => getYearsSinceUpdate now r.updated_at ≥ 3
  | .all => f2

/-- Stage 3 of the spec pipeline taken by itself: free-text search; an
empty term matches everything. -/
def applySearch (searchTerm : Str) (repos : List Repo) : List Repo :=
  if searchTerm.isEmpty then repos
  else repos.filter (matchesSearch (strLower searchTerm))

/-- The summary numbers computed by `updateStats`. -/
structure Stats where
  totalRepos : ℕ
  archivedRepos : ℕ
  activeRepos : ℕ
  totalProjects : ℕ
  archivedProjects : ℕ
  activeProjects : ℕ
  totalChapters : ℕ
  archivedChapters : ℕ
  activeChapters : ℕ
  activeWithinYear : ℕ
  olderThan1Year : ℕ
  olderThan3Years : ℕ
deriving DecidableEq, Repr

/-- `updateStats()`: aggregate counts over the full record set `repos`,
with the clock injected. -/
def updateStats (now : ℚ) (repos : List Repo) : Stats :=
  let totalRepos := repos.length
  let archivedRepos := (repos.filter fun r => r.archived).length
  let totalProjects := (repos.filter fun r => r.is_project).length
  let archivedProjects := (repos.filter fun r => r.is_project && r.archived).length
  let totalChapters := (repos.filter fun r => r.is_chapter).length
  let archivedChapters := (repos.filter fun r => r.is_chapter && r.archived).length
  { totalRepos := totalRepos
    archivedRepos := archivedRepos
    activeRepos := totalRepos - archivedRepos
    totalProjects := totalProjects
    archivedProjects := archivedProjects
    activeProjects := totalProjects - archivedProjects
    totalChapters := totalChapters
    archivedChapters := archivedChapters
    activeChapters := totalChapters - archivedChapters
    activeWithinYear :=
      (repos.filter fun r => getYearsSinceUpdate now r.updated_at < 1).length
    olderThan1Year :=
      (repos.filter fun r => getYearsSinceUpdate now r.updated_at ≥ 1).length
    olderThan3Years :=
      (repos.filter fun r => getYearsSinceUpdate now r.updated_at ≥ 3).length }

/-- The whole mutable page state: the record set plus the UI selection
globals; `updateStats` reads only the record set (and the clock). -/
structure AppState where
  repos : List Repo
  now : ℚ
  currentSort : SortKey
  filterState : FilterState
  searchTerm : Str

/-- `updateStats` as invoked from the page: a function of the state. -/
def updateStatsOf (st : AppState) : Stats := updateStats st.now st.repos

/-- Spec-side geometry formulas, written from the specification text:
`x = (index / max(length - 1, 1)) * width` and
`y = height - (value / max(series with 1 adjoined)) * height`. -/
def specSparklinePoints (data : List ℕ) (width height : ℚ) : List (ℚ × ℚ) :=
  data.enum.map fun p =>
    (((p.1 : ℚ) / ((Nat.max (data.length - 1) 1 : ℕ) : ℚ)) * width,
     height - ((p.2 : ℚ) / ((data.foldr Nat.max 1 : ℕ) : ℚ)) * height)

/-- Concrete record with a known parsed timestamp. -/
def repoKnown : Repo := normalize { updated_at := some 1000 }

/-- Concrete record with the timestamp absent. -/
def repoUnknown : Repo := normalize {}

/-- Concrete record whose name carries both category markers. -/
def dualName : Str := "WWW-Project-www-Chapter-demo".data

/- ------------------------------------------------------------------ -/
/- Helper lemmas -/
/- ------------------------------------------------------------------ -/

lemma one_le_sparkMaxNat (data : List ℕ) : 1 ≤ sparkMaxNat data := by
  induction data with
  | nil => simp [sparkMaxNat]
  | cons d t ih =>
      simp only [sparkMaxNat, List.foldr] at ih ⊢
      exact le_trans ih (Nat.le_max_right d _)

lemma le_sparkMaxNat {v : ℕ} {data : List ℕ} (h : v ∈ data) :
    v ≤ sparkMaxNat data := by
  induction data with
  | nil => cases h
  | cons d t ih =>
      simp only [sparkMaxNat, List.foldr] at ih ⊢
      rcases List.mem_cons.1 h with rfl | hm
      · exact Nat.le_max_left v _
      · exact le_trans (ih hm) (Nat.le_max_right d _)

lemma sparkDivisor_pos (data : List ℕ) : 0 < sparkDivisor data := by
  unfold sparkDivisor
  by_cases h : data.length > 1
  · simp only [h, if_true]
    have : 1 ≤ data.length - 1 := by omega
    exact_mod_cast Nat.lt_of_lt_of_le Nat.zero_lt_one this
  · simp [h]

lemma cast_le_sparkDivisor {data : List ℕ} {i : ℕ} (h : i < data.length) :
    (i : ℚ) ≤ sparkDivisor data := by
  unfold sparkDivisor
  by_cases hl : data.length > 1
  · simp only [hl, if_true]
    exact_mod_cast Nat.le_sub_one_of_lt h
  · simp only [hl, if_false]
    have : i = 0 := by omega
    simp [this]

lemma sparkDivisor_eq_specDivisor (data : List ℕ) :
    sparkDivisor data = ((Nat.max (data.length - 1) 1 : ℕ) : ℚ) := by
  unfold sparkDivisor
  by_cases h : data.length > 1
  · have hmax : Nat.max (data.length - 1) 1 = data.length - 1 :=
      Nat.max_eq_left (Nat.le_sub_one_of_lt h)
    rw [if_pos h, hmax]
  · have h0 : data.length - 1 = 0 := by omega
    have hmax : Nat.max (data.length - 1) 1 = 1 := by
      rw [h0]
      exact Nat.max_eq_right (Nat.zero_le 1)
    rw [if_neg h, hmax, Nat.cast_one]

lemma sparkPoints_eq_spec (data : List ℕ) (width height : ℚ) :
    sparkPoints data width height = specSparklinePoints data width height := by
  simp only [sparkPoints, specSparklinePoints, getCoord, sparkMaxNat,
    sparkDivisor_eq_specDivisor]

lemma getCoord_bounds {data : List ℕ} {width height : ℚ}
    (hw : 0 < width) (hh : 0 < height) {v i : ℕ}
    (hv : v ∈ data) (hi : i < data.length) :
    0 ≤ (getCoord data width height v i).1 ∧
    (getCoord data width height v i).1 ≤ width ∧
    0 ≤ (getCoord data width height v i).2 ∧
    (getCoord data width height v i).2 ≤ height := by
  have hdiv := sparkDivisor_pos data
  have hile : (i : ℚ) ≤ sparkDivisor data := cast_le_sparkDivisor hi
  have hx0 : (0 : ℚ) ≤ (i : ℚ) / sparkDivisor data :=
    div_nonneg (by positivity) hdiv.le
  have hx1 : (i : ℚ) / sparkDivisor data ≤ 1 := (div_le_one hdiv).2 hile
  have hmax1 : (1 : ℚ) ≤ (sparkMaxNat data : ℚ) := by
    exact_mod_cast one_le_sparkMaxNat data
  have hmaxpos : (0 : ℚ) < (sparkMaxNat data : ℚ) := lt_of_lt_of_le one_pos hmax1
  have hvle : (v : ℚ) ≤ (sparkMaxNat data : ℚ) := by
    exact_mod_cast le_sparkMaxNat hv
  have hy0 : (0 : ℚ) ≤ (v : ℚ) / (sparkMaxNat data : ℚ) :=
    div_nonneg (by positivity) hmaxpos.le
  have hy1 : (v : ℚ) / (sparkMaxNat data : ℚ) ≤ 1 := (div_le_one hmaxpos).2 hvle
  refine ⟨mul_nonneg hx0 hw.le, ?_, ?_, ?_⟩
  · calc (i : ℚ) / sparkDivisor data * width ≤ 1 * width :=
          mul_le_mul_of_nonneg_right hx1 hw.le
      _ = width := one_mul width
  · have : (v : ℚ) / (sparkMaxNat data : ℚ) * height ≤ 1 * height :=
      mul_le_mul_of_nonneg_right hy1 hh.le
    simp only [getCoord]
    nlinarith
  · have : (0 : ℚ) ≤ (v : ℚ) / (sparkMaxNat data : ℚ) * height :=
      mul_nonneg hy0 hh.le
    simp only [getCoord]
    linarith

/- ------------------------------------------------------------------ -/
/- Claim theorems -/
/- ------------------------------------------------------------------ -/

/-- C1 counterexample: for a record with `updatedAt` absent,
`getYearsSinceUpdate` returns plain `0` rather than a distinct unknown
sentinel, and the record IS a member of the within-year (active) recency
bucket: it is counted by `updateStats.activeWithinYear` and survives the
within-year bucket filter, contradicting exclusion from all three
buckets. -/
theorem c1_counterexample :
    (normalize {}).updated_at = none ∧
    getYearsSinceUpdate 0 (normalize {}).updated_at = 0 ∧
    (updateStats 0 [normalize {}]).activeWithinYear = 1 ∧
    filterRepos 0 (FilterState.mk false .all .withinYear) [] [normalize {}] =
      [normalize {}] := by
  refine ⟨rfl, rfl, ?_, ?_⟩ <;> decide

/-- C1 amended: for every record whose `updatedAt` is absent,
`getYearsSinceUpdate` returns 0, the record classifies into the active
bucket, passes the within-year filter, and is excluded from the
older-than-1-year and older-than-3-years filters. -/
theorem c1_missing_timestamp_in_active_bucket (now : ℚ) (r : Repo)
    (repos : List Repo) (h : r.updated_at = none) (hm : r ∈ repos) :
    getYearsSinceUpdate now r.updated_at = 0 ∧
    recencyBucket (getYearsSinceUpdate now r.updated_at) = .active ∧
    r ∈ filterRepos now (FilterState.mk false .all .withinYear) [] repos ∧
    r ∉ filterRepos now (FilterState.mk false .all .oneYrOld) [] repos ∧
    r ∉ filterRepos now (FilterState.mk false .all .threeYrOld) [] repos := by
  have hy : getYearsSinceUpdate now r.updated_at = 0 := by
    rw [h]; rfl
  refine ⟨hy, ?_, ?_, ?_, ?_⟩
  · rw [hy]; decide
  · simp [filterRepos, List.mem_filter, hy, hm]
  · simp [filterRepos, List.mem_filter, hy]
  · simp [filterRepos, List.mem_filter, hy]

/-- Witness for C1 amended at a concrete record and clock. -/
theorem c1_missing_timestamp_in_active_bucket_witness :
    (normalize {}).updated_at = none ∧ normalize {} ∈ [normalize {}] ∧
    (getYearsSinceUpdate 0 (normalize {}).updated_at = 0 ∧
      recencyBucket (getYearsSinceUpdate 0 (normalize {}).updated_at) = .active ∧
      normalize {} ∈
        filterRepos 0 (FilterState.mk false .all .withinYear) [] [normalize {}] ∧
      normalize {} ∉
        filterRepos 0 (FilterState.mk false .all .oneYrOld) [] [normalize {}] ∧
      normalize {} ∉
        filterRepos 0 (FilterState.mk false .all .threeYrOld) [] [normalize {}]) :=
  ⟨rfl, by simp,
    c1_missing_timestamp_in_active_bucket 0 (normalize {}) [normalize {}] rfl
      (by simp)⟩

/-- C2: an empty series yields the no-data sentinel; a non-empty series
yields one point per entry with the spec coordinate formulas (so an
all-zero series is a flat line at y = height, with no division by zero),
and the fill boundary is the points prefixed by (0, height) and suffixed
by (width, height). -/
theorem c2_sparkline_geometry (data : List ℕ) (width height : ℚ)
    (_hw : 0 < width) (_hh : 0 < height) :
    (data = [] → generateSparklineSVG data width height = .noData) ∧
    (data ≠ [] → generateSparklineSVG data width height =
      .svg (specSparklinePoints data width height)
        ((0, height) :: specSparklinePoints data width height ++
          [(width, height)])
        data.sum) ∧
    ((∀ v ∈ data, v = 0) →
      ∀ p ∈ specSparklinePoints data width height, p.2 = height) := by
  refine ⟨?_, ?_, ?_⟩
  · rintro rfl
    rfl
  · intro hne
    rw [generateSparklineSVG, if_neg (by simpa using hne), sparkPoints_eq_spec]
  · intro hz
    rw [specSparklinePoints, List.forall_mem_map, List.forall_mem_enum]
    intro i hi
    have h0 : data[i] = 0 := hz _ (data.getElem_mem hi)
    simp [h0]

/-- Witness for C2 at data = [0,0,0], width = 100, height = 20. -/
theorem c2_sparkline_geometry_witness :
    (0 : ℚ) < 100 ∧ (0 : ℚ) < 20 ∧
    (([0, 0, 0] : List ℕ) = [] →
        generateSparklineSVG [0, 0, 0] 100 20 = .noData) ∧
    (([0, 0, 0] : List ℕ) ≠ [] →
        generateSparklineSVG [0, 0, 0] 100 20 =
          .svg (specSparklinePoints [0, 0, 0] 100 20)
            ((0, 20) :: specSparklinePoints [0, 0, 0] 100 20 ++ [(100, 20)])
            ([0, 0, 0] : List ℕ).sum) ∧
    ((∀ v ∈ ([0, 0, 0] : List ℕ), v = 0) →
        ∀ p ∈ specSparklinePoints [0, 0, 0] 100 20, p.2 = 20) :=
  ⟨by norm_num, by norm_num,
    c2_sparkline_geometry [0, 0, 0] 100 20 (by norm_num) (by norm_num)⟩

/-- C3: the view operation is exactly the fixed three-stage composition:
sort the full record set first, then the non-search filters, then the
free-text search last. -/
theorem c3_view_pipeline_order (repos : List Repo) (now : ℚ) (k : SortKey)
    (st : FilterState) (s : Str) :
    renderRepos repos now k st s =
      applySearch s (applyFilters now st (sortRepos repos k)) := by
  cases st with
  | mk hide cat act =>
      cases cat <;> cases act <;> rfl

/-- C4: a record whose elapsed time is exactly 365.25 days classifies as
inactive under the renderRepos badge logic, and one at exactly
3 × 365.25 days classifies as long-inactive. -/
theorem c4_recency_boundaries (now : ℚ) :
    recencyBucket (getYearsSinceUpdate now (some (now - msPerYear))) =
      .inactive ∧
    recencyBucket (getYearsSinceUpdate now (some (now - 3 * msPerYear))) =
      .longInactive := by
  have hms : (msPerYear : ℚ) ≠ 0 := by norm_num [msPerYear]
  have h1 : getYearsSinceUpdate now (some (now - msPerYear)) = 1 := by
    simp [getYearsSinceUpdate, div_self hms]
  have h3 : getYearsSinceUpdate now (some (now - 3 * msPerYear)) = 3 := by
    simp only [getYearsSinceUpdate, sub_sub_cancel]
    rw [mul_div_assoc, div_self hms, mul_one]
  rw [h1, h3]
  constructor <;> decide

/-- C5: the activity score of a weekly-commit series is its arithmetic
sum, the empty series scores 0, and every normalized record carries
exactly this score in its activity-score field. -/
theorem c5_activity_score (s : List ℕ) (raw : RawRepo) :
    activityScore s = s.sum ∧ activityScore [] = 0 ∧
    (normalize raw).activity_score = (normalize raw).sparkline.sum := by
  refine ⟨?_, rfl, ?_⟩
  · cases s <;> simp [activityScore]
  · show activityScore raw.sparkline = raw.sparkline.sum
    cases hs : raw.sparkline <;> simp [activityScore, hs]

/-- C6 counterexample: under the last-updated comparators the record with
the absent timestamp does NOT move to the earliest position: ascending
sort of [known, unknown] leaves the unknown record last, and descending
sort of [unknown, known] leaves it first, because the comparator result
is NaN (treated as 0) and the stable sort keeps the original order. -/
theorem c6_counterexample :
    repoKnown.updated_at = some 1000 ∧
    repoUnknown.updated_at = none ∧
    sortRepos [repoKnown, repoUnknown] .updatedAsc =
      [repoKnown, repoUnknown] ∧
    sortRepos [repoUnknown, repoKnown] .updatedDesc =
      [repoUnknown, repoKnown] := by
  refine ⟨rfl, rfl, ?_, ?_⟩ <;> decide

/-- C6 amended: a record with both timestamps absent compares as equal
(comparator value 0, the ECMAScript treatment of a NaN result) to every
record under every timestamp sort key, in both argument orders, so the
stable sort leaves it in its original relative position in a pair and
never throws. -/
theorem c6_unknown_timestamp_compares_equal (a b : Repo) (k : SortKey)
    (ha : a.updated_at = none) (hc : a.created_at = none)
    (hk : k = .updatedAsc ∨ k = .updatedDesc ∨
      k = .createdAsc ∨ k = .createdDesc) :
    comparator k a b = 0 ∧ comparator k b a = 0 ∧
    sortRepos [a, b] k = [a, b] ∧ sortRepos [b, a] k = [b, a] := by
  have hab : comparator k a b = 0 ∧ comparator k b a = 0 := by
    rcases hk with rfl | rfl | rfl | rfl <;>
      constructor <;>
        cases hb : b.updated_at <;>
          cases hb2 : b.created_at <;>
            simp [comparator, numSub, sortCompareVal, ha, hc, hb, hb2]
  refine ⟨hab.1, hab.2, ?_, ?_⟩
  · show stableInsert (comparator k) a [b] = [a, b]
    rw [stableInsert, if_pos (le_of_eq hab.1)]
  · show stableInsert (comparator k) b [a] = [b, a]
    rw [stableInsert, if_pos (le_of_eq hab.2)]

/-- Witness for C6 amended at the concrete pair and the ascending
last-updated key. -/
theorem c6_unknown_timestamp_compares_equal_witness :
    repoUnknown.updated_at = none ∧ repoUnknown.created_at = none ∧
    (comparator .updatedAsc repoUnknown repoKnown = 0 ∧
      comparator .updatedAsc repoKnown repoUnknown = 0 ∧
      sortRepos [repoUnknown, repoKnown] .updatedAsc =
        [repoUnknown, repoKnown] ∧
      sortRepos [repoKnown, repoUnknown] .updatedAsc =
        [repoKnown, repoUnknown]) :=
  ⟨rfl, rfl,
    c6_unknown_timestamp_compares_equal repoUnknown repoKnown .updatedAsc
      rfl rfl (Or.inl rfl)⟩

/-- C7 counterexample: a record last updated exactly 4 years ago is
long-inactive (3yr+ badge), yet it survives the older-than-1-year
(inactive) bucket selection, so that selection does not keep only
records of the inactive bucket. -/
theorem c7_counterexample :
    recencyBucket
        (getYearsSinceUpdate (4 * msPerYear)
          (normalize { updated_at := some 0 }).updated_at) = .longInactive ∧
    filterRepos (4 * msPerYear) (FilterState.mk false .all .oneYrOld) []
        [normalize { updated_at := some 0 }] =
      [normalize { updated_at := some 0 }] := by
  have hms : (msPerYear : ℚ) ≠ 0 := by norm_num [msPerYear]
  have hupd : (normalize { updated_at := some 0 } : Repo).updated_at =
      some 0 := rfl
  have hy : getYearsSinceUpdate (4 * msPerYear)
      (normalize { updated_at := some 0 } : Repo).updated_at = 4 := by
    rw [hupd]
    simp only [getYearsSinceUpdate, sub_zero]
    rw [mul_div_assoc, div_self hms, mul_one]
  constructor
  · rw [hy]
    unfold recencyBucket
    norm_num
  · simp [filterRepos, List.filter, hy]

/-- C7 amended: selecting the older-than-1-year (inactive) bucket keeps
exactly the records with at least 1.0 years since update — an inclusive
lower bound with no upper bound, so long-inactive records also pass. -/
theorem c7_inactive_filter_is_lower_bound_only (now : ℚ)
    (repos : List Repo) (r : Repo) :
    r ∈ filterRepos now (FilterState.mk false .all .oneYrOld) [] repos ↔
      r ∈ repos ∧ 1 ≤ getYearsSinceUpdate now r.updated_at := by
  simp [filterRepos, List.mem_filter]

/-- C8: the aggregate statistics are a function of the record set (and
clock) alone: any two page states sharing the record set and clock, no
matter their filter, search, or sort selections, yield identical
statistics. -/
theorem c8_stats_independent_of_view_state (s1 s2 : AppState)
    (hr : s1.repos = s2.repos) (hn : s1.now = s2.now) :
    updateStatsOf s1 = updateStatsOf s2 := by
  rw [updateStatsOf, updateStatsOf, hr, hn]

/-- Witness for C8 on two states over the same record set that differ in
every selection: sort key, category filter, activity filter, archived
visibility and search term. -/
theorem c8_stats_independent_of_view_state_witness :
    (AppState.mk [repoKnown, repoUnknown] 0 .activityDesc
        (FilterState.mk true .all .all) []).repos =
      (AppState.mk [repoKnown, repoUnknown] 0 .nameAsc
        (FilterState.mk false .project .oneYrOld) ['x']).repos ∧
    (AppState.mk [repoKnown, repoUnknown] 0 .activityDesc
        (FilterState.mk true .all .all) []).now =
      (AppState.mk [repoKnown, repoUnknown] 0 .nameAsc
        (FilterState.mk false .project .oneYrOld) ['x']).now ∧
    updateStatsOf
        (AppState.mk [repoKnown, repoUnknown] 0 .activityDesc
          (FilterState.mk true .all .all) []) =
      updateStatsOf
        (AppState.mk [repoKnown, repoUnknown] 0 .nameAsc
          (FilterState.mk false .project .oneYrOld) ['x']) :=
  ⟨rfl, rfl,
    c8_stats_independent_of_view_state _ _ rfl rfl⟩

/-- C9: for a non-empty series of naturals and positive dimensions, every
point the sparkline generator emits lies inside the bounding box:
0 ≤ x ≤ width and 0 ≤ y ≤ height. -/
theorem c9_points_in_bounds (data : List ℕ) (width height : ℚ)
    (hw : 0 < width) (hh : 0 < height)
    (pts fill : List (ℚ × ℚ)) (tc : ℕ)
    (hres : generateSparklineSVG data width height = .svg pts fill tc) :
    ∀ p ∈ pts, 0 ≤ p.1 ∧ p.1 ≤ width ∧ 0 ≤ p.2 ∧ p.2 ≤ height := by
  rw [generateSparklineSVG] at hres
  by_cases hd : data.isEmpty
  · rw [if_pos hd] at hres
    cases hres
  · rw [if_neg hd] at hres
    have hpts : pts = sparkPoints data width height :=
      (SparklineResult.svg.injEq _ _ _ _ _ _ ▸ hres).1.symm
    subst hpts
    rw [sparkPoints, List.forall_mem_map, List.forall_mem_enum]
    intro i hi
    exact getCoord_bounds hw hh (data.getElem_mem hi) hi

/-- Witness for C9 at data = [5], width = 100, height = 20. -/
theorem c9_points_in_bounds_witness :
    (0 : ℚ) < 100 ∧ (0 : ℚ) < 20 ∧
    generateSparklineSVG [5] 100 20 =
      .svg [((0 : ℚ), (0 : ℚ))] [(0, 20), (0, 0), (100, 20)] 5 ∧
    ∀ p ∈ [((0 : ℚ), (0 : ℚ))],
      0 ≤ p.1 ∧ p.1 ≤ (100 : ℚ) ∧ 0 ≤ p.2 ∧ p.2 ≤ (20 : ℚ) := by
  have hres : generateSparklineSVG [5] 100 20 =
      .svg [((0 : ℚ), (0 : ℚ))] [(0, 20), (0, 0), (100, 20)] 5 := by
    simp [generateSparklineSVG, sparkPoints, getCoord, sparkDivisor,
      sparkMaxNat, List.enum, List.enumFrom]
  exact ⟨by norm_num, by norm_num, hres,
    c9_points_in_bounds [5] 100 20 (by norm_num) (by norm_num)
      [((0 : ℚ), (0 : ℚ))] [(0, 20), (0, 0), (100, 20)] 5 hres⟩

/-- C10: a name containing both category markers (case-insensitively)
normalizes with both flags set; the record passes both the project-only
and the chapter-only category filter and is counted in both the project
and the chapter aggregate totals. -/
theorem c10_dual_category_flags :
    (normalize { name := some dualName }).is_project = true ∧
    (normalize { name := some dualName }).is_chapter = true ∧
    filterRepos 0 (FilterState.mk false .project .all) []
        [normalize { name := some dualName }] =
      [normalize { name := some dualName }] ∧
    filterRepos 0 (FilterState.mk false .chapter .all) []
        [normalize { name := some dualName }] =
      [normalize { name := some dualName }] ∧
    (updateStats 0 [normalize { name := some dualName }]).totalProjects = 1 ∧
    (updateStats 0 [normalize { name := some dualName }]).totalChapters = 1 := by
  refine ⟨?_, ?_, ?_, ?_, ?_, ?_⟩ <;> decide

end Bumper
